import Mathlib

/-!
Satellite cluster group resource: membership reconciliation.

A shallow embedding of `ibm/resource_ibm_satcon_clustergroup.go`.

* The resource data `d` is a record; `d.Set` is a record update.
* The client session `meta` and the remote group service are a record of
  answers: every handler calls each remote operation at most once, so the
  answer of an operation is a function of its arguments.
* An element of the `clusters` list reaches a handler as an `interface` value
  that is either a member map or `nil`; the unchecked assertion
  `.(map[string]interface{})` panics on `nil`. Elements are `Option Cluster`
  and a loop that asserts them returns `none` when it panics.
* A handler leaves behind its Go `error` (`none` for `nil`), the resource data,
  the list of remote group service calls it made, in order, and whether it
  panicked instead of returning.
-/

namespace SatconClusterGroup

/-- One element of the `clusters` list of the schema (lines 47-64). -/
structure Cluster where
  cluster_id : String
  name : String
deriving DecidableEq, Repr

/-- An error value handed back by the remote group service. The service client
is not part of this file of the provider; only its message (what `%s` prints)
reaches the handlers, `notFound` records whether the service meant "no such
group". -/
structure RemoteError where
  notFound : Bool
  message : String
deriving DecidableEq, Repr

/-- The group returned by `GroupByName` (fields read at lines 147-158). -/
structure Group where
  uuid : String
  name : String
  created : String
  clusters : List Cluster
deriving DecidableEq, Repr

/-- A call to the remote group service, with its arguments. -/
inductive Call where
  | AddGroup (account name : String)
  | GroupClusters (account uuid : String) (clusterIDs : List String)
  | UnGroupClusters (account uuid : String) (clusterIDs : List String)
  | GroupByName (account name : String)
  | RemoveGroupByName (account name : String)
deriving DecidableEq, Repr

/-- The `*schema.ResourceData` of the resource: the id, the schema fields, and
for `clusters` both the prior state (`oldClusters`) and the current value. An
element of a cluster list is a member map (`some`) or the nil interface value
(`none`). -/
structure ResourceData where
  id : String
  uuid : String
  name : String
  created : String
  oldClusters : List (Option Cluster)
  clusters : List (Option Cluster)
deriving DecidableEq, Repr

/-- The `meta.(ClientSession)` value together with the remote group service
behind `satconClient.Groups`. -/
structure ClientSession where
  satellitConfigClientSession : Except String Unit
  bluemixUserDetails : Except String String
  addGroup : String → String → Except RemoteError String
  groupClusters : String → String → List String → Except RemoteError Unit
  unGroupClusters : String → String → List String → Except RemoteError Unit
  groupByName : String → String → Except RemoteError Group
  removeGroupByName : String → String → Except RemoteError String

/-- What a handler leaves behind: the returned error, the resource data, the
remote calls made, oldest first, and whether the handler panicked (then
nothing was returned and `err` is `none`). -/
structure Outcome where
  err : Option String
  d : ResourceData
  calls : List Call
  panicked : Bool
deriving DecidableEq, Repr

/-- Lexicographic three-way comparison of two character sequences (the order
of code points is the order of their UTF-8 bytes). -/
def compareChars : List Char → List Char → Int
  | [], [] => 0
  | [], _ :: _ => -1
  | _ :: _, [] => 1
  | x :: xs, y :: ys =>
    if x.toNat < y.toNat then -1
    else if y.toNat < x.toNat then 1
    else compareChars xs ys

/-- Go `strings.Compare`: 0 when equal, -1 when `a < b`, +1 when `a > b`. -/
def stringsCompare (a b : String) : Int :=
  compareChars a.data b.data

/-- `d.HasChange("clusters")`: the prior and the current value differ. -/
def hasChangeClusters (d : ResourceData) : Bool :=
  decide (d.oldClusters ≠ d.clusters)

/-- `d.GetOk("clusters")`: `ok` is false for the zero value, the empty list. -/
def getOkClusters (d : ResourceData) : Option (List (Option Cluster)) :=
  if d.clusters = [] then none else some d.clusters

/-- Inner loop of lines 196-202: every old element visited is asserted to be a
map (line 197, `none` on nil), and `exists` becomes true at the first old
cluster whose id compares equal to the new cluster's id (`break`). -/
def existsInOld (newCluster : Cluster) : List (Option Cluster) → Option Bool
  | [] => some false
  | oCl :: rest =>
    match oCl with
    | none => none
    | some oldCluster =>
      if stringsCompare newCluster.cluster_id oldCluster.cluster_id = 0 then some true
      else existsInOld newCluster rest

/-- Inner loop of lines 211-218: every new element visited is asserted to be a
map (line 212, `none` on nil), and `exists` becomes true at the first new
cluster whose id compares equal to the old cluster's id (`break`). -/
def existsInNew (oldCluster : Cluster) : List (Option Cluster) → Option Bool
  | [] => some false
  | nCl :: rest =>
    match nCl with
    | none => none
    | some newCluster =>
      if stringsCompare newCluster.cluster_id oldCluster.cluster_id = 0 then some true
      else existsInNew oldCluster rest

/-- Outer loop of lines 193-207 over the new elements, each asserted to be a
map at line 194 (`none` on nil), appending to the accumulator
`clusterIDsForAttach`. -/
def attachLoop (oldClusters : List (Option Cluster)) :
    List (Option Cluster) → List String → Option (List String)
  | [], acc => some acc
  | nCl :: rest, acc =>
    match nCl with
    | none => none
    | some newCluster =>
      match existsInOld newCluster oldClusters with
      | none => none
      | some true => attachLoop oldClusters rest acc
      | some false => attachLoop oldClusters rest (acc ++ [newCluster.cluster_id])

/-- Outer loop of lines 208-223 over the old elements, each asserted to be a
map at line 209 (`none` on nil), appending to the accumulator
`clusterIDsForDetach`. -/
def detachLoop (newClusters : List (Option Cluster)) :
    List (Option Cluster) → List String → Option (List String)
  | [], acc => some acc
  | oCl :: rest, acc =>
    match oCl with
    | none => none
    | some oldCluster =>
      match existsInNew oldCluster newClusters with
      | none => none
      | some true => detachLoop newClusters rest acc
      | some false => detachLoop newClusters rest (acc ++ [oldCluster.cluster_id])

/-- Value of `clusterIDsForAttach` at line 225 for an old and a new list all of
whose elements are member maps. -/
def clusterIDsForAttach (oldClusters newClusters : List Cluster) : List String :=
  (attachLoop (oldClusters.map some) (newClusters.map some) []).getD []

/-- Value of `clusterIDsForDetach` at line 225 for an old and a new list all of
whose elements are member maps. -/
def clusterIDsForDetach (oldClusters newClusters : List Cluster) : List String :=
  (detachLoop (newClusters.map some) (oldClusters.map some) []).getD []

/-- Loop of lines 98-106 in Create: each element is asserted to be a map at
line 99 (`none` on nil), then empty ids are skipped (`continue`). -/
def createAttachLoop : List (Option Cluster) → List String → Option (List String)
  | [], acc => some acc
  | nCl :: rest, acc =>
    match nCl with
    | none => none
    | some newCluster =>
      if newCluster.cluster_id = "" then createAttachLoop rest acc
      else createAttachLoop rest (acc ++ [newCluster.cluster_id])

/-- Handler `resourceIBMSatconClusterGroupRead` (lines 120-161). -/
def resourceIBMSatconClusterGroupRead (d : ResourceData) (meta : ClientSession) : Outcome :=
  let groupName := d.id
  if groupName = "" then ⟨some "satellite clustergroup name is empty", d, [], false⟩
  else
    match meta.satellitConfigClientSession with
    | .error err => ⟨some err, d, [], false⟩
    | .ok _ =>
      match meta.bluemixUserDetails with
      | .error err => ⟨some err, d, [], false⟩
      | .ok userAccount =>
        match meta.groupByName userAccount groupName with
        | .error err =>
          ⟨some ("error retrieving satellite clustergroup: " ++ err.message), d,
            [Call.GroupByName userAccount groupName], false⟩
        | .ok group =>
          let clusters := group.clusters.map (fun c => some (Cluster.mk c.cluster_id c.name))
          ⟨none,
            { d with uuid := group.uuid, name := group.name, created := group.created,
                     clusters := clusters },
            [Call.GroupByName userAccount groupName], false⟩

/-- Tail of Create, `return resourceIBMSatconClusterGroupRead(d, meta)` at
line 117, after the calls already made. -/
def createThenRead (d : ResourceData) (meta : ClientSession) (made : List Call) : Outcome :=
  let r := resourceIBMSatconClusterGroupRead d meta
  ⟨r.err, r.d, made ++ r.calls, r.panicked⟩

/-- Handler `resourceIBMSatconClusterGroupCreate` (lines 69-118). -/
def resourceIBMSatconClusterGroupCreate (d : ResourceData) (meta : ClientSession) : Outcome :=
  match meta.satellitConfigClientSession with
  | .error err => ⟨some err, d, [], false⟩
  | .ok _ =>
    match meta.bluemixUserDetails with
    | .error err => ⟨some err, d, [], false⟩
    | .ok userAccount =>
      let name := d.name
      match meta.addGroup userAccount name with
      | .error err =>
        ⟨some ("error creating satellite clustergroup: " ++ err.message), d,
          [Call.AddGroup userAccount name], false⟩
      | .ok addUUID =>
        let d1 := { d with id := name, uuid := addUUID }
        match getOkClusters d1 with
        | none => createThenRead d1 meta [Call.AddGroup userAccount name]
        | some newClusters =>
          match createAttachLoop newClusters [] with
          | none => ⟨none, d1, [Call.AddGroup userAccount name], true⟩
          | some clusterIDsForAttach =>
            if clusterIDsForAttach.length > 0 then
              match meta.groupClusters userAccount addUUID clusterIDsForAttach with
              | .error err =>
                ⟨some ("error attaching satellite clustergroup: " ++ err.message), d1,
                  [Call.AddGroup userAccount name,
                   Call.GroupClusters userAccount addUUID clusterIDsForAttach], false⟩
              | .ok _ =>
                createThenRead d1 meta
                  [Call.AddGroup userAccount name,
                   Call.GroupClusters userAccount addUUID clusterIDsForAttach]
            else createThenRead d1 meta [Call.AddGroup userAccount name]

/-- Lines 234-243 of Update: the detach call, after the calls already made. -/
def updateDetach (d : ResourceData) (meta : ClientSession) (userAccount uuid : String)
    (clusterIDsForDetach : List String) (made : List Call) : Outcome :=
  if clusterIDsForDetach.length > 0 then
    match meta.unGroupClusters userAccount uuid clusterIDsForDetach with
    | .error err =>
      ⟨some ("error detaching satellite clustergroup: " ++ err.message), d,
        made ++ [Call.UnGroupClusters userAccount uuid clusterIDsForDetach], false⟩
    | .ok _ =>
      ⟨none, d, made ++ [Call.UnGroupClusters userAccount uuid clusterIDsForDetach], false⟩
  else ⟨none, d, made, false⟩

/-- Handler `resourceIBMSatconClusterGroupUpdate` (lines 163-244). -/
def resourceIBMSatconClusterGroupUpdate (d : ResourceData) (meta : ClientSession) : Outcome :=
  if !hasChangeClusters d then ⟨none, d, [], false⟩
  else
    let groupName := d.id
    let uuid := d.uuid
    if groupName = "" then ⟨some "satellite clustergroup name is empty", d, [], false⟩
    else
      match meta.satellitConfigClientSession with
      | .error err => ⟨some err, d, [], false⟩
      | .ok _ =>
        match meta.bluemixUserDetails with
        | .error err => ⟨some err, d, [], false⟩
        | .ok userAccount =>
          match attachLoop d.oldClusters d.clusters [] with
          | none => ⟨none, d, [], true⟩
          | some forAttach =>
            match detachLoop d.clusters d.oldClusters [] with
            | none => ⟨none, d, [], true⟩
            | some forDetach =>
              if forAttach.length > 0 then
                match meta.groupClusters userAccount uuid forAttach with
                | .error err =>
                  ⟨some ("error attaching satellite clustergroup: " ++ err.message), d,
                    [Call.GroupClusters userAccount uuid forAttach], false⟩
                | .ok _ =>
                  updateDetach d meta userAccount uuid forDetach
                    [Call.GroupClusters userAccount uuid forAttach]
              else updateDetach d meta userAccount uuid forDetach []

/-- Handler `resourceIBMSatconClusterGroupDelete` (lines 246-276). -/
def resourceIBMSatconClusterGroupDelete (d : ResourceData) (meta : ClientSession) : Outcome :=
  let groupName := d.id
  if groupName = "" then ⟨some "satellite clustergroup name is empty", d, [], false⟩
  else
    match meta.satellitConfigClientSession with
    | .error err => ⟨some err, d, [], false⟩
    | .ok _ =>
      match meta.bluemixUserDetails with
      | .error err => ⟨some err, d, [], false⟩
      | .ok userAccount =>
        match meta.removeGroupByName userAccount groupName with
        | .error err =>
          ⟨some ("failed deleting satellite clustergroup: " ++ err.message), d,
            [Call.RemoveGroupByName userAccount groupName], false⟩
        | .ok _ =>
          ⟨none, { d with id := "" }, [Call.RemoveGroupByName userAccount groupName], false⟩

/-- Recognises the attach call `GroupClusters`. -/
def isGroupClusters : Call → Bool
  | .GroupClusters _ _ _ => true
  | _ => false

/-- Recognises the membership calls `GroupClusters` and `UnGroupClusters`. -/
def isMembershipCall : Call → Bool
  | .GroupClusters _ _ _ => true
  | .UnGroupClusters _ _ _ => true
  | _ => false

/-- The cluster ids of a list of member maps, in order. -/
def clusterIDs (l : List Cluster) : List String := l.map Cluster.cluster_id

/-- The cluster id of the member behind a list element: the id of the map, or
the empty string for the nil element (a member reaches a handler as nil only
when its `cluster_id` and `name` are both empty). -/
def memberID : Option Cluster → String
  | none => ""
  | some c => c.cluster_id

/-- The cluster ids of the members behind a list of elements, in order. -/
def memberIDs (l : List (Option Cluster)) : List String := l.map memberID

/-- A client session in which every step succeeds: account `acct`, new groups
get uuid `u1`, and `GroupByName` answers with `g`. -/
def sessionOk (g : Group) : ClientSession where
  satellitConfigClientSession := .ok ()
  bluemixUserDetails := .ok "acct"
  addGroup := fun _ _ => .ok "u1"
  groupClusters := fun _ _ _ => .ok ()
  unGroupClusters := fun _ _ _ => .ok ()
  groupByName := fun _ _ => .ok g
  removeGroupByName := fun _ _ => .ok "u1"

/-- A client session in which `GroupByName` fails with `e`. -/
def sessionLookupFails (e : RemoteError) : ClientSession where
  satellitConfigClientSession := .ok ()
  bluemixUserDetails := .ok "acct"
  addGroup := fun _ _ => .ok "u1"
  groupClusters := fun _ _ _ => .ok ()
  unGroupClusters := fun _ _ _ => .ok ()
  groupByName := fun _ _ => .error e
  removeGroupByName := fun _ _ => .ok "u1"

/-! Section: The comparison and the two loops -/

theorem compareChars_eq_zero (a b : List Char) : compareChars a b = 0 ↔ a = b := by
  induction a generalizing b with
  | nil => cases b <;> simp [compareChars]
  | cons x xs ih =>
    cases b with
    | nil => simp [compareChars]
    | cons y ys =>
      simp only [compareChars, List.cons.injEq]
      by_cases h1 : x.toNat < y.toNat
      · have hne : x ≠ y := by
          intro h; subst h; exact absurd h1 (lt_irrefl _)
        simp [h1, hne]
      · by_cases h2 : y.toNat < x.toNat
        · have hne : x ≠ y := by
            intro h; subst h; exact absurd h2 (lt_irrefl _)
          simp [h1, h2, hne]
        · have hxy : x = y := by
            apply Char.ext
            apply UInt32.ext
            have : x.toNat = y.toNat := by omega
            exact this
          simp [h1, h2, hxy, ih]

theorem stringsCompare_eq_zero (a b : String) : stringsCompare a b = 0 ↔ a = b := by
  unfold stringsCompare
  rw [compareChars_eq_zero]
  constructor
  · intro h; exact String.ext h
  · intro h; rw [h]


theorem existsInOld_maps (n : Cluster) (old : List Cluster) :
    existsInOld n (old.map some) = some (decide (n.cluster_id ∈ clusterIDs old)) := by
  induction old with
  | nil => simp [existsInOld, clusterIDs]
  | cons o rest ih =>
    simp only [List.map_cons, existsInOld, stringsCompare_eq_zero]
    by_cases h : n.cluster_id = o.cluster_id
    · simp [h, clusterIDs]
    · rw [if_neg h, ih]
      simp [clusterIDs, h]

theorem existsInNew_maps (o : Cluster) (new : List Cluster) :
    existsInNew o (new.map some) = some (decide (o.cluster_id ∈ clusterIDs new)) := by
  induction new with
  | nil => simp [existsInNew, clusterIDs]
  | cons n rest ih =>
    simp only [List.map_cons, existsInNew, stringsCompare_eq_zero]
    by_cases h : n.cluster_id = o.cluster_id
    · simp [h, clusterIDs]
    · have h2 : ¬ o.cluster_id = n.cluster_id := fun e => h e.symm
      rw [if_neg h, ih]
      simp [clusterIDs, h2]

theorem attachLoop_maps (old new : List Cluster) (acc : List String) :
    attachLoop (old.map some) (new.map some) acc
      = some (acc ++ (clusterIDs new).filter (fun x => decide (x ∉ clusterIDs old))) := by
  induction new generalizing acc with
  | nil => simp [attachLoop, clusterIDs]
  | cons n rest ih =>
    have hc : clusterIDs (n :: rest) = n.cluster_id :: clusterIDs rest := rfl
    simp only [List.map_cons, attachLoop, existsInOld_maps]
    by_cases hm : n.cluster_id ∈ clusterIDs old
    · simp only [hm, decide_True, ih, hc, List.filter_cons]
      simp [hm]
    · simp only [hm, decide_False, ih, hc, List.filter_cons]
      simp [hm]

theorem detachLoop_maps (new old : List Cluster) (acc : List String) :
    detachLoop (new.map some) (old.map some) acc
      = some (acc ++ (clusterIDs old).filter (fun x => decide (x ∉ clusterIDs new))) := by
  induction old generalizing acc with
  | nil => simp [detachLoop, clusterIDs]
  | cons o rest ih =>
    have hc : clusterIDs (o :: rest) = o.cluster_id :: clusterIDs rest := rfl
    simp only [List.map_cons, detachLoop, existsInNew_maps]
    by_cases hm : o.cluster_id ∈ clusterIDs new
    · simp only [hm, decide_True, ih, hc, List.filter_cons]
      simp [hm]
    · simp only [hm, decide_False, ih, hc, List.filter_cons]
      simp [hm]

theorem clusterIDsForAttach_eq (old new : List Cluster) :
    clusterIDsForAttach old new
      = (clusterIDs new).filter (fun x => decide (x ∉ clusterIDs old)) := by
  simp [clusterIDsForAttach, attachLoop_maps]

theorem clusterIDsForDetach_eq (old new : List Cluster) :
    clusterIDsForDetach old new
      = (clusterIDs old).filter (fun x => decide (x ∉ clusterIDs new)) := by
  simp [clusterIDsForDetach, detachLoop_maps]

theorem attachLoop_maps_eq (old new : List Cluster) :
    attachLoop (old.map some) (new.map some) [] = some (clusterIDsForAttach old new) := by
  rw [attachLoop_maps, clusterIDsForAttach_eq, List.nil_append]

theorem detachLoop_maps_eq (old new : List Cluster) :
    detachLoop (new.map some) (old.map some) [] = some (clusterIDsForDetach old new) := by
  rw [detachLoop_maps, clusterIDsForDetach_eq, List.nil_append]

theorem mem_clusterIDsForAttach (old new : List Cluster) (x : String) :
    x ∈ clusterIDsForAttach old new ↔ x ∈ clusterIDs new ∧ x ∉ clusterIDs old := by
  simp [clusterIDsForAttach_eq, List.mem_filter]

theorem mem_clusterIDsForDetach (old new : List Cluster) (x : String) :
    x ∈ clusterIDsForDetach old new ↔ x ∈ clusterIDs old ∧ x ∉ clusterIDs new := by
  simp [clusterIDsForDetach_eq, List.mem_filter]

theorem mem_clusterIDs (l : List Cluster) (x : String) :
    x ∈ clusterIDs l ↔ ∃ c, c ∈ l ∧ c.cluster_id = x := by
  simp [clusterIDs]

theorem memberIDs_maps (l : List Cluster) : memberIDs (l.map some) = clusterIDs l := by
  simp [memberIDs, clusterIDs, memberID, Function.comp_def]

theorem createAttachLoop_maps (new : List Cluster) (acc : List String) :
    createAttachLoop (new.map some) acc
      = some (acc ++ (clusterIDs new).filter (fun x => decide (x ≠ ""))) := by
  induction new generalizing acc with
  | nil => simp [createAttachLoop, clusterIDs]
  | cons n rest ih =>
    have hc : clusterIDs (n :: rest) = n.cluster_id :: clusterIDs rest := rfl
    simp only [List.map_cons, createAttachLoop]
    by_cases h : n.cluster_id = ""
    · rw [if_pos h, ih, hc, List.filter_cons]
      simp [h]
    · rw [if_neg h, ih, hc, List.filter_cons]
      simp [h]

theorem exists_maps_of_no_nil (l : List (Option Cluster)) (h : ∀ m, m ∈ l → m ≠ none) :
    ∃ l' : List Cluster, l = l'.map some := by
  induction l with
  | nil => exact ⟨[], rfl⟩
  | cons m rest ih =>
    obtain ⟨rest', hr⟩ := ih (fun x hx => h x (List.mem_cons_of_mem _ hx))
    cases m with
    | none => exact absurd rfl (h none (List.mem_cons_self _ _))
    | some c => exact ⟨c :: rest', by simp [hr]⟩

theorem attachLoop_some_maps (old new : List (Option Cluster)) (acc r : List String)
    (h : attachLoop old new acc = some r) : ∃ new' : List Cluster, new = new'.map some := by
  induction new generalizing acc with
  | nil => exact ⟨[], rfl⟩
  | cons m rest ih =>
    cases m with
    | none => simp [attachLoop] at h
    | some c =>
      simp only [attachLoop] at h
      cases he : existsInOld c old with
      | none => simp [he] at h
      | some b =>
        cases b with
        | true =>
          simp only [he] at h
          obtain ⟨rest', hr⟩ := ih _ h
          exact ⟨c :: rest', by simp [hr]⟩
        | false =>
          simp only [he] at h
          obtain ⟨rest', hr⟩ := ih _ h
          exact ⟨c :: rest', by simp [hr]⟩

theorem detachLoop_some_maps (new old : List (Option Cluster)) (acc r : List String)
    (h : detachLoop new old acc = some r) : ∃ old' : List Cluster, old = old'.map some := by
  induction old generalizing acc with
  | nil => exact ⟨[], rfl⟩
  | cons m rest ih =>
    cases m with
    | none => simp [detachLoop] at h
    | some c =>
      simp only [detachLoop] at h
      cases he : existsInNew c new with
      | none => simp [he] at h
      | some b =>
        cases b with
        | true =>
          simp only [he] at h
          obtain ⟨rest', hr⟩ := ih _ h
          exact ⟨c :: rest', by simp [hr]⟩
        | false =>
          simp only [he] at h
          obtain ⟨rest', hr⟩ := ih _ h
          exact ⟨c :: rest', by simp [hr]⟩

theorem clusterIDsForAttach_self (l : List Cluster) : clusterIDsForAttach l l = [] := by
  rw [clusterIDsForAttach_eq, List.filter_eq_nil_iff]
  intro x hx
  simp [hx]

theorem clusterIDsForDetach_self (l : List Cluster) : clusterIDsForDetach l l = [] := by
  rw [clusterIDsForDetach_eq, List.filter_eq_nil_iff]
  intro x hx
  simp [hx]

theorem clusterIDsForAttach_eq_nil_iff (old new : List Cluster) :
    clusterIDsForAttach old new = [] ↔ ∀ x, x ∈ clusterIDs new → x ∈ clusterIDs old := by
  rw [clusterIDsForAttach_eq, List.filter_eq_nil_iff]
  simp

theorem clusterIDsForDetach_eq_nil_iff (old new : List Cluster) :
    clusterIDsForDetach old new = [] ↔ ∀ x, x ∈ clusterIDs old → x ∈ clusterIDs new := by
  rw [clusterIDsForDetach_eq, List.filter_eq_nil_iff]
  simp

/-! Section: The reconciliation lists -/

/-- For lists of member maps, a cluster id is in the attach list exactly when
it is the id of some new entry and of no old entry, and in the detach list
exactly when it is the id of some old entry and of no new entry. -/
theorem membership_of_maps (old new : List Cluster) (x : String) :
    (x ∈ clusterIDsForAttach old new ↔
      (∃ c, c ∈ new ∧ c.cluster_id = x) ∧ ¬ ∃ c, c ∈ old ∧ c.cluster_id = x) ∧
    (x ∈ clusterIDsForDetach old new ↔
      (∃ c, c ∈ old ∧ c.cluster_id = x) ∧ ¬ ∃ c, c ∈ new ∧ c.cluster_id = x) := by
  rw [mem_clusterIDsForAttach, mem_clusterIDsForDetach, mem_clusterIDs, mem_clusterIDs]
  exact ⟨Iff.rfl, Iff.rfl⟩

/-- C7: re-diffing converges. If `mid` holds the ids of `old` plus the attach
list, the new diff attaches nothing and detaches the same ids as before; if
`fin` holds the ids of `mid` minus the detach list, the new diff is empty on
both sides and `fin` has the ids of `new`. -/
theorem rediff_converges (old new mid fin : List Cluster)
    (hmid : ∀ x, x ∈ clusterIDs mid ↔
      x ∈ clusterIDs old ∨ x ∈ clusterIDsForAttach old new)
    (hfin : ∀ x, x ∈ clusterIDs fin ↔
      x ∈ clusterIDs mid ∧ x ∉ clusterIDsForDetach old new) :
    clusterIDsForAttach mid new = [] ∧
    (∀ x, x ∈ clusterIDsForDetach mid new ↔ x ∈ clusterIDsForDetach old new) ∧
    clusterIDsForAttach fin new = [] ∧
    clusterIDsForDetach fin new = [] ∧
    (∀ x, x ∈ clusterIDs fin ↔ x ∈ clusterIDs new) := by
  have hfin2 : ∀ x, x ∈ clusterIDs fin ↔ x ∈ clusterIDs new := by
    intro x
    rw [hfin, hmid, mem_clusterIDsForAttach, mem_clusterIDsForDetach]
    tauto
  refine ⟨?_, ?_, ?_, ?_, hfin2⟩
  · rw [clusterIDsForAttach_eq_nil_iff]
    intro x hx
    rw [hmid, mem_clusterIDsForAttach]
    tauto
  · intro x
    rw [mem_clusterIDsForDetach, mem_clusterIDsForDetach, hmid, mem_clusterIDsForAttach]
    tauto
  · rw [clusterIDsForAttach_eq_nil_iff]
    intro x hx
    exact (hfin2 x).2 hx
  · rw [clusterIDsForDetach_eq_nil_iff]
    intro x hx
    exact (hfin2 x).1 hx

/-- Witness for C7 at old = [c1, c2], new = [c2, c3]. -/
theorem rediff_converges_witness :
    clusterIDsForAttach [⟨"c1", ""⟩, ⟨"c2", ""⟩, ⟨"c3", ""⟩] [⟨"c2", ""⟩, ⟨"c3", ""⟩] = [] ∧
    (∀ x, x ∈ clusterIDsForDetach [⟨"c1", ""⟩, ⟨"c2", ""⟩, ⟨"c3", ""⟩]
            [⟨"c2", ""⟩, ⟨"c3", ""⟩] ↔
          x ∈ clusterIDsForDetach [⟨"c1", ""⟩, ⟨"c2", ""⟩] [⟨"c2", ""⟩, ⟨"c3", ""⟩]) ∧
    clusterIDsForAttach [⟨"c3", "n3"⟩, ⟨"c2", ""⟩] [⟨"c2", ""⟩, ⟨"c3", ""⟩] = [] ∧
    clusterIDsForDetach [⟨"c3", "n3"⟩, ⟨"c2", ""⟩] [⟨"c2", ""⟩, ⟨"c3", ""⟩] = [] ∧
    (∀ x, x ∈ clusterIDs [⟨"c3", "n3"⟩, ⟨"c2", ""⟩] ↔
          x ∈ clusterIDs [⟨"c2", ""⟩, ⟨"c3", ""⟩]) :=
  rediff_converges [⟨"c1", ""⟩, ⟨"c2", ""⟩] [⟨"c2", ""⟩, ⟨"c3", ""⟩]
    [⟨"c1", ""⟩, ⟨"c2", ""⟩, ⟨"c3", ""⟩] [⟨"c3", "n3"⟩, ⟨"c2", ""⟩]
    (by
      have h : clusterIDsForAttach [⟨"c1", ""⟩, ⟨"c2", ""⟩] [⟨"c2", ""⟩, ⟨"c3", ""⟩]
          = ["c3"] := by decide
      intro x
      rw [h]
      simp [clusterIDs]
      tauto)
    (by
      have h : clusterIDsForDetach [⟨"c1", ""⟩, ⟨"c2", ""⟩] [⟨"c2", ""⟩, ⟨"c3", ""⟩]
          = ["c1"] := by decide
      intro x
      rw [h]
      simp only [clusterIDs, List.map, List.mem_cons, List.mem_singleton, List.not_mem_nil,
        or_false]
      constructor
      · rintro (h | h) <;> subst h <;> simp
      · rintro ⟨h | h | h, hne⟩
        · exact absurd h hne
        · exact Or.inr h
        · exact Or.inl h)

/-- C8: the attach and detach lists depend only on the cluster ids: lists with
the same ids entry by entry (names free) give identical attach and detach
lists, and when new and old have the same ids both lists are empty. -/
theorem diff_depends_only_on_ids (old new old' new' : List Cluster)
    (ho : clusterIDs old' = clusterIDs old) (hn : clusterIDs new' = clusterIDs new) :
    clusterIDsForAttach old' new' = clusterIDsForAttach old new ∧
    clusterIDsForDetach old' new' = clusterIDsForDetach old new ∧
    (clusterIDs new = clusterIDs old →
      clusterIDsForAttach old new = [] ∧ clusterIDsForDetach old new = []) := by
  refine ⟨?_, ?_, ?_⟩
  · rw [clusterIDsForAttach_eq, clusterIDsForAttach_eq, ho, hn]
  · rw [clusterIDsForDetach_eq, clusterIDsForDetach_eq, ho, hn]
  · intro h
    constructor
    · rw [clusterIDsForAttach_eq_nil_iff, h]
      exact fun _ hx => hx
    · rw [clusterIDsForDetach_eq_nil_iff, h]
      exact fun _ hx => hx

/-- Witness for C8: renaming every entry of old = [c1, c2], new = [c2, c3]
keeps both lists, and a pure renaming of [c1, c2] gives two empty lists. -/
theorem diff_depends_only_on_ids_witness :
    (clusterIDsForAttach [⟨"c1", "x"⟩, ⟨"c2", "y"⟩] [⟨"c2", "z"⟩, ⟨"c3", "w"⟩]
        = clusterIDsForAttach [⟨"c1", "a"⟩, ⟨"c2", "b"⟩] [⟨"c2", "b"⟩, ⟨"c3", "c"⟩] ∧
      clusterIDsForDetach [⟨"c1", "x"⟩, ⟨"c2", "y"⟩] [⟨"c2", "z"⟩, ⟨"c3", "w"⟩]
        = clusterIDsForDetach [⟨"c1", "a"⟩, ⟨"c2", "b"⟩] [⟨"c2", "b"⟩, ⟨"c3", "c"⟩]) ∧
    (clusterIDsForAttach [⟨"c1", "a"⟩, ⟨"c2", "b"⟩] [⟨"c1", "p"⟩, ⟨"c2", "q"⟩] = [] ∧
      clusterIDsForDetach [⟨"c1", "a"⟩, ⟨"c2", "b"⟩] [⟨"c1", "p"⟩, ⟨"c2", "q"⟩] = []) :=
  ⟨⟨(diff_depends_only_on_ids [⟨"c1", "a"⟩, ⟨"c2", "b"⟩] [⟨"c2", "b"⟩, ⟨"c3", "c"⟩]
        [⟨"c1", "x"⟩, ⟨"c2", "y"⟩] [⟨"c2", "z"⟩, ⟨"c3", "w"⟩] (by decide) (by decide)).1,
    (diff_depends_only_on_ids [⟨"c1", "a"⟩, ⟨"c2", "b"⟩] [⟨"c2", "b"⟩, ⟨"c3", "c"⟩]
        [⟨"c1", "x"⟩, ⟨"c2", "y"⟩] [⟨"c2", "z"⟩, ⟨"c3", "w"⟩] (by decide) (by decide)).2.1⟩,
   (diff_depends_only_on_ids [⟨"c1", "a"⟩, ⟨"c2", "b"⟩] [⟨"c1", "p"⟩, ⟨"c2", "q"⟩]
        [⟨"c1", "a"⟩, ⟨"c2", "b"⟩] [⟨"c1", "p"⟩, ⟨"c2", "q"⟩] (by decide) (by decide)).2.2
      (by decide)⟩

/-- C10, as stated, fails: an id repeated in the new list and absent from the
old one is repeated in the attach batch. -/
theorem attach_batch_repeats_duplicate :
    clusterIDsForAttach [] [⟨"c1", ""⟩, ⟨"c1", ""⟩] = ["c1", "c1"] ∧
    ¬ (clusterIDsForAttach [] [⟨"c1", ""⟩, ⟨"c1", ""⟩]).Nodup := by
  decide

/-- C10, amended: when no cluster id occurs twice in the new list the attach
batch holds every id at most once, and when none occurs twice in the old list
the detach batch holds every id at most once. -/
theorem batches_nodup (old new : List Cluster) :
    ((clusterIDs new).Nodup → (clusterIDsForAttach old new).Nodup) ∧
    ((clusterIDs old).Nodup → (clusterIDsForDetach old new).Nodup) := by
  constructor
  · intro h
    rw [clusterIDsForAttach_eq]
    exact h.filter _
  · intro h
    rw [clusterIDsForDetach_eq]
    exact h.filter _

/-- Witness for the amended C10 at old = [c1, c2], new = [c2, c3]. -/
theorem batches_nodup_witness :
    (clusterIDsForAttach [⟨"c1", ""⟩, ⟨"c2", ""⟩] [⟨"c2", ""⟩, ⟨"c3", ""⟩]).Nodup ∧
    (clusterIDsForDetach [⟨"c1", ""⟩, ⟨"c2", ""⟩] [⟨"c2", ""⟩, ⟨"c3", ""⟩]).Nodup :=
  ⟨(batches_nodup [⟨"c1", ""⟩, ⟨"c2", ""⟩] [⟨"c2", ""⟩, ⟨"c3", ""⟩]).1 (by decide),
   (batches_nodup [⟨"c1", ""⟩, ⟨"c2", ""⟩] [⟨"c2", ""⟩, ⟨"c3", ""⟩]).2 (by decide)⟩


/-- C1 fails on the code at the new list holding the one nil element (the
member with empty cluster_id and name) and an empty old list: the empty id
belongs to a new member and to no old one, but the loop panics at the element
assertion and no attach list exists. -/
theorem diff_nil_member_not_computed :
    attachLoop [] [none] [] = none ∧
    "" ∈ memberIDs [none] ∧
    "" ∉ memberIDs ([] : List (Option Cluster)) := by
  decide

/-! Section: Update -/

theorem hasChangeClusters_false (d : ResourceData) (h : hasChangeClusters d = false) :
    d.oldClusters = d.clusters := by
  simpa [hasChangeClusters] using h

theorem map_some_injective (a b : List Cluster) (h : a.map some = b.map some) : a = b :=
  List.map_injective_iff.2 (Option.some_injective Cluster) h

theorem update_maps_calls_nil_iff (d : ResourceData) (meta : ClientSession) (acct : String)
    (old new : List Cluster) (ho : d.oldClusters = old.map some)
    (hn : d.clusters = new.map some)
    (hname : d.id ≠ "") (hs : meta.satellitConfigClientSession = .ok ())
    (hu : meta.bluemixUserDetails = .ok acct) :
    (resourceIBMSatconClusterGroupUpdate d meta).calls = [] ↔
      clusterIDsForAttach old new = [] ∧ clusterIDsForDetach old new = [] := by
  unfold resourceIBMSatconClusterGroupUpdate
  cases hc : hasChangeClusters d with
  | false =>
    have he := hasChangeClusters_false d hc
    rw [ho, hn] at he
    have he2 := map_some_injective old new he
    simp [he2, clusterIDsForAttach_self, clusterIDsForDetach_self]
  | true =>
    simp only [Bool.not_true, Bool.false_eq_true, if_false, hname, hs, hu, ho, hn,
      attachLoop_maps_eq, detachLoop_maps_eq]
    cases hA : clusterIDsForAttach old new with
    | nil =>
      cases hD : clusterIDsForDetach old new with
      | nil => simp [updateDetach]
      | cons b bs =>
        simp only [updateDetach]
        cases hun : meta.unGroupClusters acct d.uuid (b :: bs) <;> simp [hun]
    | cons a as =>
      cases hg : meta.groupClusters acct d.uuid (a :: as) with
      | error e => simp [hg]
      | ok v =>
        simp only [updateDetach]
        cases hD : clusterIDsForDetach old new with
        | nil => simp [hg]
        | cons b bs =>
          cases hun : meta.unGroupClusters acct d.uuid (b :: bs) <;> simp [hg, hun]

/-- For lists of member maps, with a non-empty group name and a session that
resolves, Update makes no remote call exactly when the new and the old list
have the same set of cluster ids. -/
theorem update_maps_no_call_iff (d : ResourceData) (meta : ClientSession) (acct : String)
    (old new : List Cluster) (ho : d.oldClusters = old.map some)
    (hn : d.clusters = new.map some)
    (hname : d.id ≠ "") (hs : meta.satellitConfigClientSession = .ok ())
    (hu : meta.bluemixUserDetails = .ok acct) :
    (resourceIBMSatconClusterGroupUpdate d meta).calls = [] ↔
      ∀ x, x ∈ clusterIDs new ↔ x ∈ clusterIDs old := by
  rw [update_maps_calls_nil_iff d meta acct old new ho hn hname hs hu,
    clusterIDsForAttach_eq_nil_iff, clusterIDsForDetach_eq_nil_iff]
  constructor
  · rintro ⟨h1, h2⟩ x
    exact ⟨h1 x, h2 x⟩
  · intro h
    exact ⟨fun x => (h x).1, fun x => (h x).2⟩

/-- C2 fails on the code at an empty old list and the new list holding the one
nil element, with a non-empty name and a session that resolves: the id sets
differ, yet Update panics at the element assertion and makes no remote call. -/
theorem update_nil_member_panics_without_call :
    (resourceIBMSatconClusterGroupUpdate ⟨"g1", "u1", "g1", "", [], [none]⟩
        (sessionOk ⟨"u1", "g1", "", []⟩)).panicked = true ∧
    (resourceIBMSatconClusterGroupUpdate ⟨"g1", "u1", "g1", "", [], [none]⟩
        (sessionOk ⟨"u1", "g1", "", []⟩)).calls = [] ∧
    ¬ (∀ x, x ∈ memberIDs [none] ↔ x ∈ memberIDs ([] : List (Option Cluster))) := by
  refine ⟨by decide, by decide, ?_⟩
  intro h
  exact absurd ((h "").1 (by decide)) (by decide)

/-- C3, as stated, fails: with old = [c1, c2], new = [c2, c3] both lists are
non-empty and every remote call would succeed, but with an empty group name
Update makes no call and returns the name error. -/
theorem update_empty_name_no_sequence :
    attachLoop [some ⟨"c1", ""⟩, some ⟨"c2", ""⟩] [some ⟨"c2", ""⟩, some ⟨"c3", ""⟩] []
      = some ["c3"] ∧
    detachLoop [some ⟨"c2", ""⟩, some ⟨"c3", ""⟩] [some ⟨"c1", ""⟩, some ⟨"c2", ""⟩] []
      = some ["c1"] ∧
    (resourceIBMSatconClusterGroupUpdate
        ⟨"", "u1", "g1", "", [some ⟨"c1", ""⟩, some ⟨"c2", ""⟩],
          [some ⟨"c2", ""⟩, some ⟨"c3", ""⟩]⟩
        (sessionOk ⟨"u1", "g1", "", []⟩)).calls = [] ∧
    (resourceIBMSatconClusterGroupUpdate
        ⟨"", "u1", "g1", "", [some ⟨"c1", ""⟩, some ⟨"c2", ""⟩],
          [some ⟨"c2", ""⟩, some ⟨"c3", ""⟩]⟩
        (sessionOk ⟨"u1", "g1", "", []⟩)).err
      = some "satellite clustergroup name is empty" := by
  decide

/-- C3, amended: when the group name is non-empty, the session and the user
details resolve, the attach and the detach list are computed and both
non-empty, and both remote calls succeed, Update makes exactly two remote
calls: GroupClusters with the stored uuid and the attach list, then
UnGroupClusters with the same uuid and the detach list; it returns no error
and does not panic. -/
theorem update_attach_then_detach (d : ResourceData) (meta : ClientSession) (acct : String)
    (att det : List String)
    (hname : d.id ≠ "") (hs : meta.satellitConfigClientSession = .ok ())
    (hu : meta.bluemixUserDetails = .ok acct)
    (hatt : attachLoop d.oldClusters d.clusters [] = some att)
    (hdet : detachLoop d.clusters d.oldClusters [] = some det)
    (hA : att ≠ []) (hD : det ≠ [])
    (hg : meta.groupClusters acct d.uuid att = .ok ())
    (hun : meta.unGroupClusters acct d.uuid det = .ok ()) :
    (resourceIBMSatconClusterGroupUpdate d meta).calls
      = [Call.GroupClusters acct d.uuid att, Call.UnGroupClusters acct d.uuid det] ∧
    (resourceIBMSatconClusterGroupUpdate d meta).err = none ∧
    (resourceIBMSatconClusterGroupUpdate d meta).panicked = false := by
  have hc : hasChangeClusters d = true := by
    cases hc : hasChangeClusters d with
    | true => rfl
    | false =>
      have he := hasChangeClusters_false d hc
      obtain ⟨new', hn⟩ := attachLoop_some_maps _ _ _ _ hatt
      rw [he, hn, attachLoop_maps_eq, clusterIDsForAttach_self] at hatt
      exact absurd (Option.some.inj hatt).symm hA
  have hAl : att.length > 0 := List.length_pos.2 hA
  have hDl : det.length > 0 := List.length_pos.2 hD
  unfold resourceIBMSatconClusterGroupUpdate
  simp only [hc, Bool.not_true, Bool.false_eq_true, if_false, hname, hs, hu, hatt, hdet, hAl,
    if_true, hg, updateDetach, hDl, hun]
  simp

/-- Witness for the amended C3: old = [c1, c2], new = [c2, c3], uuid u1 gives
attach(u1, [c3]) then detach(u1, [c1]). -/
theorem update_attach_then_detach_witness :
    (resourceIBMSatconClusterGroupUpdate
        ⟨"g1", "u1", "g1", "", [some ⟨"c1", ""⟩, some ⟨"c2", ""⟩],
          [some ⟨"c2", ""⟩, some ⟨"c3", ""⟩]⟩
        (sessionOk ⟨"u1", "g1", "", []⟩)).calls
      = [Call.GroupClusters "acct" "u1" ["c3"], Call.UnGroupClusters "acct" "u1" ["c1"]] ∧
    (resourceIBMSatconClusterGroupUpdate
        ⟨"g1", "u1", "g1", "", [some ⟨"c1", ""⟩, some ⟨"c2", ""⟩],
          [some ⟨"c2", ""⟩, some ⟨"c3", ""⟩]⟩
        (sessionOk ⟨"u1", "g1", "", []⟩)).err = none ∧
    (resourceIBMSatconClusterGroupUpdate
        ⟨"g1", "u1", "g1", "", [some ⟨"c1", ""⟩, some ⟨"c2", ""⟩],
          [some ⟨"c2", ""⟩, some ⟨"c3", ""⟩]⟩
        (sessionOk ⟨"u1", "g1", "", []⟩)).panicked = false :=
  update_attach_then_detach
    ⟨"g1", "u1", "g1", "", [some ⟨"c1", ""⟩, some ⟨"c2", ""⟩],
      [some ⟨"c2", ""⟩, some ⟨"c3", ""⟩]⟩
    (sessionOk ⟨"u1", "g1", "", []⟩) "acct" ["c3"] ["c1"] (by decide) rfl rfl
    (by decide) (by decide) (by decide) (by decide) rfl rfl

/-- C6, as stated, fails: with a non-empty name and an empty stored uuid Update
returns no error and makes the attach call, addressed by the empty uuid. -/
theorem update_empty_uuid_calls :
    (resourceIBMSatconClusterGroupUpdate
        ⟨"g1", "", "g1", "", [], [some ⟨"c1", ""⟩]⟩ (sessionOk ⟨"u1", "g1", "", []⟩)).calls
      = [Call.GroupClusters "acct" "" ["c1"]] ∧
    (resourceIBMSatconClusterGroupUpdate
        ⟨"g1", "", "g1", "", [], [some ⟨"c1", ""⟩]⟩ (sessionOk ⟨"u1", "g1", "", []⟩)).err
      = none := by
  decide

/-- C6, amended: with an empty group name Update makes no remote call, whatever
the lists and the uuid, and it returns the error "satellite clustergroup name
is empty" whenever the clusters field has a change. -/
theorem update_empty_name (d : ResourceData) (meta : ClientSession) (hname : d.id = "") :
    (resourceIBMSatconClusterGroupUpdate d meta).calls = [] ∧
    (hasChangeClusters d = true →
      (resourceIBMSatconClusterGroupUpdate d meta).err
        = some "satellite clustergroup name is empty") := by
  unfold resourceIBMSatconClusterGroupUpdate
  cases hc : hasChangeClusters d <;> simp [hname]

/-- Witness for the amended C6: empty name, old = [], new = [c1]. -/
theorem update_empty_name_witness :
    (resourceIBMSatconClusterGroupUpdate
        ⟨"", "u1", "g1", "", [], [some ⟨"c1", ""⟩]⟩
        (sessionOk ⟨"u1", "g1", "", []⟩)).calls = [] ∧
    (resourceIBMSatconClusterGroupUpdate
        ⟨"", "u1", "g1", "", [], [some ⟨"c1", ""⟩]⟩ (sessionOk ⟨"u1", "g1", "", []⟩)).err
      = some "satellite clustergroup name is empty" :=
  ⟨(update_empty_name ⟨"", "u1", "g1", "", [], [some ⟨"c1", ""⟩]⟩
      (sessionOk ⟨"u1", "g1", "", []⟩) rfl).1,
   (update_empty_name ⟨"", "u1", "g1", "", [], [some ⟨"c1", ""⟩]⟩
      (sessionOk ⟨"u1", "g1", "", []⟩) rfl).2 (by decide)⟩

/-! Section: Read -/

theorem read_calls_no_groupClusters (d : ResourceData) (meta : ClientSession) :
    (resourceIBMSatconClusterGroupRead d meta).calls.filter isGroupClusters = [] := by
  unfold resourceIBMSatconClusterGroupRead
  by_cases hname : d.id = ""
  · simp [hname]
  · simp only [hname, if_false]
    cases hs : meta.satellitConfigClientSession with
    | error e => simp
    | ok v =>
      cases hu : meta.bluemixUserDetails with
      | error e => simp
      | ok acct =>
        cases hl : meta.groupByName acct d.id <;> simp [hl, isGroupClusters]

/-- C5, as stated, fails: a not-found error and any other remote error with
the same message leave Read with the very same outcome, a generic retrieval
error with the local record (its id) kept. -/
theorem read_not_found_not_distinguished :
    resourceIBMSatconClusterGroupRead ⟨"g1", "u1", "g1", "", [], []⟩
        (sessionLookupFails ⟨true, "no group"⟩)
      = resourceIBMSatconClusterGroupRead ⟨"g1", "u1", "g1", "", [], []⟩
        (sessionLookupFails ⟨false, "no group"⟩) ∧
    (resourceIBMSatconClusterGroupRead ⟨"g1", "u1", "g1", "", [], []⟩
        (sessionLookupFails ⟨true, "no group"⟩)).err
      = some "error retrieving satellite clustergroup: no group" ∧
    (resourceIBMSatconClusterGroupRead ⟨"g1", "u1", "g1", "", [], []⟩
        (sessionLookupFails ⟨true, "no group"⟩)).d.id = "g1" := by
  decide

/-- C5, amended: when the GroupByName lookup fails with any error, not-found
or not, Read returns the error "error retrieving satellite clustergroup: "
followed by the error's message, leaves the resource data untouched, and has
made the one lookup call. -/
theorem read_lookup_failure (d : ResourceData) (meta : ClientSession) (acct : String)
    (e : RemoteError) (hname : d.id ≠ "")
    (hs : meta.satellitConfigClientSession = .ok ())
    (hu : meta.bluemixUserDetails = .ok acct)
    (hl : meta.groupByName acct d.id = .error e) :
    resourceIBMSatconClusterGroupRead d meta
      = ⟨some ("error retrieving satellite clustergroup: " ++ e.message), d,
          [Call.GroupByName acct d.id], false⟩ := by
  unfold resourceIBMSatconClusterGroupRead
  simp only [hname, if_false, hs, hu, hl]

/-- Witness for the amended C5 at a not-found error. -/
theorem read_lookup_failure_witness :
    resourceIBMSatconClusterGroupRead ⟨"g1", "u1", "g1", "", [], []⟩
        (sessionLookupFails ⟨true, "no group"⟩)
      = ⟨some ("error retrieving satellite clustergroup: " ++ "no group"),
          ⟨"g1", "u1", "g1", "", [], []⟩, [Call.GroupByName "acct" "g1"], false⟩ :=
  read_lookup_failure ⟨"g1", "u1", "g1", "", [], []⟩ (sessionLookupFails ⟨true, "no group"⟩)
    "acct" ⟨true, "no group"⟩ (by decide) rfl rfl rfl

/-! Section: Create -/

theorem create_maps_groupClusters_calls (d : ResourceData) (meta : ClientSession)
    (acct u : String) (new : List Cluster) (hn : d.clusters = new.map some)
    (hs : meta.satellitConfigClientSession = .ok ())
    (hu : meta.bluemixUserDetails = .ok acct)
    (ha : meta.addGroup acct d.name = .ok u) :
    (resourceIBMSatconClusterGroupCreate d meta).calls.filter isGroupClusters
      = if (clusterIDs new).filter (fun x => decide (x ≠ "")) = [] then []
        else [Call.GroupClusters acct u
                ((clusterIDs new).filter (fun x => decide (x ≠ "")))] := by
  unfold resourceIBMSatconClusterGroupCreate
  simp only [hs, hu, ha, getOkClusters, hn]
  by_cases hcl : new = []
  · simp [hcl, createThenRead, read_calls_no_groupClusters, isGroupClusters, clusterIDs]
  · have hcl2 : ¬ List.map some new = [] := by simpa using hcl
    simp only [hcl2, if_false, createAttachLoop_maps, List.nil_append]
    cases hf : (clusterIDs new).filter (fun x => decide (x ≠ "")) with
    | nil => simp [createThenRead, read_calls_no_groupClusters, isGroupClusters]
    | cons a as =>
      cases hg : meta.groupClusters acct u (a :: as) <;>
        simp [hg, createThenRead, read_calls_no_groupClusters, isGroupClusters]

theorem create_calls_head (d : ResourceData) (meta : ClientSession) (acct : String)
    (hs : meta.satellitConfigClientSession = .ok ())
    (hu : meta.bluemixUserDetails = .ok acct) :
    (resourceIBMSatconClusterGroupCreate d meta).calls.head?
      = some (Call.AddGroup acct d.name) := by
  unfold resourceIBMSatconClusterGroupCreate
  simp only [hs, hu, getOkClusters]
  cases ha : meta.addGroup acct d.name with
  | error e => simp [ha]
  | ok u =>
    by_cases hcl : d.clusters = []
    · simp [ha, hcl, createThenRead]
    · simp only [ha, hcl, if_false]
      cases hloop : createAttachLoop d.clusters [] with
      | none => simp
      | some ids =>
        simp only []
        split
        · split <;> simp [createThenRead]
        · simp [createThenRead]

theorem create_empty_no_groupClusters (d : ResourceData) (meta : ClientSession)
    (hcl : d.clusters = []) :
    (resourceIBMSatconClusterGroupCreate d meta).calls.filter isGroupClusters = [] := by
  unfold resourceIBMSatconClusterGroupCreate
  cases hs : meta.satellitConfigClientSession with
  | error e => simp
  | ok v =>
    cases hu : meta.bluemixUserDetails with
    | error e => simp
    | ok acct =>
      cases ha : meta.addGroup acct d.name with
      | error e => simp [ha, isGroupClusters]
      | ok u =>
        simp [ha, getOkClusters, hcl, createThenRead, read_calls_no_groupClusters,
          isGroupClusters]

/-- A member that arrives as the nil element makes Create panic at the element
assertion of line 99, after AddGroup and before any attach call. -/
theorem create_nil_member_panics_after_allocate :
    resourceIBMSatconClusterGroupCreate ⟨"", "", "g1", "", [], [none, some ⟨"c1", ""⟩]⟩
        (sessionOk ⟨"u1", "g1", "", []⟩)
      = ⟨none, ⟨"g1", "u1", "g1", "", [], [none, some ⟨"c1", ""⟩]⟩,
          [Call.AddGroup "acct" "g1"], true⟩ := by
  decide

/-- C4, as stated, fails: with a member map whose cluster_id is empty Create
still makes the AddGroup call, skips that member and returns no error. -/
theorem create_empty_id_still_allocates :
    (resourceIBMSatconClusterGroupCreate
        ⟨"", "", "g1", "", [], [some ⟨"", "x"⟩, some ⟨"c1", "y"⟩]⟩
        (sessionOk ⟨"u1", "g1", "", [⟨"c1", "y"⟩]⟩)).calls
      = [Call.AddGroup "acct" "g1", Call.GroupClusters "acct" "u1" ["c1"],
         Call.GroupByName "acct" "g1"] ∧
    (resourceIBMSatconClusterGroupCreate
        ⟨"", "", "g1", "", [], [some ⟨"", "x"⟩, some ⟨"c1", "y"⟩]⟩
        (sessionOk ⟨"u1", "g1", "", [⟨"c1", "y"⟩]⟩)).err = none := by
  decide

/-- C4, amended: Create does not reject a member whose cluster_id is empty.
Whenever the session and the user details resolve, the first remote call is
AddGroup; and when AddGroup succeeds with uuid u and every member reaches the
handler as a map (no nil element), members with an empty id are skipped: the
attach calls made are none if no member has a non-empty id, else the single
call carrying u and the non-empty cluster ids of the list, in order. -/
theorem create_skips_empty_ids (d : ResourceData) (meta : ClientSession) (acct : String)
    (hs : meta.satellitConfigClientSession = .ok ())
    (hu : meta.bluemixUserDetails = .ok acct) :
    (resourceIBMSatconClusterGroupCreate d meta).calls.head?
      = some (Call.AddGroup acct d.name) ∧
    (∀ u, meta.addGroup acct d.name = .ok u →
      (∀ m, m ∈ d.clusters → m ≠ none) →
      (resourceIBMSatconClusterGroupCreate d meta).calls.filter isGroupClusters
        = if (memberIDs d.clusters).filter (fun x => decide (x ≠ "")) = [] then []
          else [Call.GroupClusters acct u
                  ((memberIDs d.clusters).filter (fun x => decide (x ≠ "")))]) := by
  refine ⟨create_calls_head d meta acct hs hu, ?_⟩
  intro u ha hmaps
  obtain ⟨new, hn⟩ := exists_maps_of_no_nil d.clusters hmaps
  rw [create_maps_groupClusters_calls d meta acct u new hn hs hu ha, hn, memberIDs_maps]

/-- Witness for the amended C4 at the member maps ["", c1]. -/
theorem create_skips_empty_ids_witness :
    (resourceIBMSatconClusterGroupCreate
        ⟨"", "", "g1", "", [], [some ⟨"", "x"⟩, some ⟨"c1", "y"⟩]⟩
        (sessionOk ⟨"u1", "g1", "", [⟨"c1", "y"⟩]⟩)).calls.head?
      = some (Call.AddGroup "acct" "g1") ∧
    (resourceIBMSatconClusterGroupCreate
        ⟨"", "", "g1", "", [], [some ⟨"", "x"⟩, some ⟨"c1", "y"⟩]⟩
        (sessionOk ⟨"u1", "g1", "", [⟨"c1", "y"⟩]⟩)).calls.filter isGroupClusters
      = if (memberIDs [some ⟨"", "x"⟩, some ⟨"c1", "y"⟩]).filter
              (fun x => decide (x ≠ "")) = []
        then []
        else [Call.GroupClusters "acct" "u1"
                ((memberIDs [some ⟨"", "x"⟩, some ⟨"c1", "y"⟩]).filter
                  (fun x => decide (x ≠ "")))] :=
  ⟨(create_skips_empty_ids ⟨"", "", "g1", "", [], [some ⟨"", "x"⟩, some ⟨"c1", "y"⟩]⟩
      (sessionOk ⟨"u1", "g1", "", [⟨"c1", "y"⟩]⟩) "acct" rfl rfl).1,
   (create_skips_empty_ids ⟨"", "", "g1", "", [], [some ⟨"", "x"⟩, some ⟨"c1", "y"⟩]⟩
      (sessionOk ⟨"u1", "g1", "", [⟨"c1", "y"⟩]⟩) "acct" rfl rfl).2 "u1" rfl (by decide)⟩

/-- C9: for a non-empty desired list whose entries all have a non-empty
cluster_id, when the session resolves and AddGroup returns uuid u, Create makes
exactly one GroupClusters call, addressed by u and carrying the cluster ids of
the desired list; for an empty desired list it makes no GroupClusters call. -/
theorem create_attaches_desired (d : ResourceData) (meta : ClientSession) :
    (∀ acct u, meta.satellitConfigClientSession = .ok () →
      meta.bluemixUserDetails = .ok acct →
      meta.addGroup acct d.name = .ok u →
      d.clusters ≠ [] →
      (∀ m, m ∈ d.clusters → memberID m ≠ "") →
      (resourceIBMSatconClusterGroupCreate d meta).calls.filter isGroupClusters
        = [Call.GroupClusters acct u (memberIDs d.clusters)]) ∧
    (d.clusters = [] →
      (resourceIBMSatconClusterGroupCreate d meta).calls.filter isGroupClusters = []) := by
  refine ⟨?_, create_empty_no_groupClusters d meta⟩
  intro acct u hs hu ha hne hids
  have hmaps : ∀ m, m ∈ d.clusters → m ≠ none := by
    intro m hm hnone
    subst hnone
    exact hids none hm rfl
  obtain ⟨new, hn⟩ := exists_maps_of_no_nil d.clusters hmaps
  have hf : (clusterIDs new).filter (fun x => decide (x ≠ "")) = clusterIDs new := by
    rw [List.filter_eq_self]
    intro x hx
    obtain ⟨c, hc, rfl⟩ := (mem_clusterIDs _ _).1 hx
    have := hids (some c) (by rw [hn]; exact List.mem_map_of_mem some hc)
    simpa [memberID] using this
  have hne2 : clusterIDs new ≠ [] := by
    intro h0
    apply hne
    rw [hn]
    have : new = [] := by simpa [clusterIDs] using h0
    simp [this]
  rw [create_maps_groupClusters_calls d meta acct u new hn hs hu ha, hf, if_neg hne2, hn,
    memberIDs_maps]

/-- Witness for C9: Create of g1 with members [c1, c2], AddGroup returning u1,
calls attach(u1, [c1, c2]); with no members it makes no attach call. -/
theorem create_attaches_desired_witness :
    (resourceIBMSatconClusterGroupCreate
        ⟨"", "", "g1", "", [], [some ⟨"c1", ""⟩, some ⟨"c2", ""⟩]⟩
        (sessionOk ⟨"u1", "g1", "", []⟩)).calls.filter isGroupClusters
      = [Call.GroupClusters "acct" "u1" (memberIDs [some ⟨"c1", ""⟩, some ⟨"c2", ""⟩])] ∧
    (resourceIBMSatconClusterGroupCreate ⟨"", "", "g1", "", [], []⟩
        (sessionOk ⟨"u1", "g1", "", []⟩)).calls.filter isGroupClusters = [] :=
  ⟨(create_attaches_desired ⟨"", "", "g1", "", [], [some ⟨"c1", ""⟩, some ⟨"c2", ""⟩]⟩
      (sessionOk ⟨"u1", "g1", "", []⟩)).1 "acct" "u1" rfl rfl rfl (by decide) (by decide),
   (create_attaches_desired ⟨"", "", "g1", "", [], []⟩
      (sessionOk ⟨"u1", "g1", "", []⟩)).2 rfl⟩

end SatconClusterGroup
